import Mathlib

/-!
Verification of the MindPulse deterministic scoring and forecast engine,
shallowly embedded from src/backend/app.py.  Python floats are modelled as
exact rationals; payload entries cover the JSON value space (numbers,
strings, booleans, and null/array/object values), with CPython float()
coercion of strings embedded as an exact-rational parser; the global
Mersenne-Twister generator (random.seed followed by a sequence of
random.uniform calls) is modelled as an abstract seed-indexed stream of
unit-interval draws, and random.uniform a b is a + (b - a) * u with u the
next draw of the stream, exactly as in CPython.
-/

namespace MindPulse

/-- Payload values that can appear as a metric entry in the JSON request body:
a number, a string (which CPython float() parses, succeeding on numeric
spellings and raising ValueError naming the string otherwise), a boolean
(float(True) is 1.0, float(False) is 0.0), or a non-numeric object (null,
array, object), which float() rejects with a TypeError naming the type of the
argument. -/
inductive PyVal where
  | num (q : ℚ)
  | str (s : String)
  | boolean (b : Bool)
  | obj (typeName : String)
deriving DecidableEq

/-- Errors raised by the metric coercions.  float() on a non-numeric string
raises ValueError whose message carries the offending string itself; float()
on a non-numeric non-string object raises TypeError whose message carries the
type of the argument.  Neither error carries the payload key the value was
stored under. -/
inductive PyErr where
  | valueError (value : String)
  | typeError (typeName : String)
deriving DecidableEq

/-- Fully populated metrics record: the thirteen recognized keys read by
compute_mri (src/backend/app.py), in source order. -/
structure Metrics where
  sleep : ℚ
  switching : ℚ
  stress : ℚ
  workload : ℚ
  hrv : ℚ
  deep_work : ℚ
  deep_work_hours : ℚ
  context_switching : ℚ
  context_hours : ℚ
  recovery_breaks : ℚ
  recovery_hours : ℚ
  overload_hours : ℚ
  overload_hours_count : ℚ
deriving DecidableEq

/-- Request payload: each recognized metric key optionally present.  Keys the
engine never reads are irrelevant and omitted from the model. -/
structure Payload where
  sleep : Option PyVal := none
  switching : Option PyVal := none
  stress : Option PyVal := none
  workload : Option PyVal := none
  hrv : Option PyVal := none
  deep_work : Option PyVal := none
  deep_work_hours : Option PyVal := none
  context_switching : Option PyVal := none
  context_hours : Option PyVal := none
  recovery_breaks : Option PyVal := none
  recovery_hours : Option PyVal := none
  overload_hours : Option PyVal := none
  overload_hours_count : Option PyVal := none
deriving DecidableEq

/-- Python max of two numbers (ties return either side; on numbers the choice
is unobservable). -/
def rmax (a b : ℚ) : ℚ := if a ≤ b then b else a

/-- Python min of two numbers. -/
def rmin (a b : ℚ) : ℚ := if a ≤ b then a else b

/-- Integer max, for the integral clamp inside compute_mri. -/
def imax (a b : ℤ) : ℤ := if a ≤ b then b else a

/-- Integer min, for the integral clamp inside compute_mri. -/
def imin (a b : ℤ) : ℤ := if a ≤ b then a else b

/-- Function clamp(value, low, high) from app.py: max(low, min(high, value)). -/
def clamp (value low high : ℚ) : ℚ := rmax low (rmin high value)

/-- Decidable equality of Except values, for evaluating concrete runs. -/
instance {ε α : Type} [DecidableEq ε] [DecidableEq α] : DecidableEq (Except ε α)
  | .ok a, .ok b =>
    if h : a = b then .isTrue (congrArg Except.ok h)
    else .isFalse (fun hh => h (Except.ok.inj hh))
  | .ok _, .error _ => .isFalse (fun hh => Except.noConfusion hh)
  | .error _, .ok _ => .isFalse (fun hh => Except.noConfusion hh)
  | .error a, .error b =>
    if h : a = b then .isTrue (congrArg Except.error h)
    else .isFalse (fun hh => h (Except.error.inj hh))

/-- Truncation toward zero, the behaviour of Python int() on a float. -/
def ratTrunc (x : ℚ) : ℤ := if 0 ≤ x then ⌊x⌋ else ⌈x⌉

/-- Round-half-to-even, the behaviour of Python round() with no digit count. -/
def pyRound (x : ℚ) : ℤ :=
  if x - ⌊x⌋ < 1/2 then ⌊x⌋
  else if 1/2 < x - ⌊x⌋ then ⌊x⌋ + 1
  else if ⌊x⌋ % 2 = 0 then ⌊x⌋ else ⌊x⌋ + 1

/-- Python round(x, 2): round to two decimal places. -/
def round2 (x : ℚ) : ℚ := (pyRound (x * 100) : ℚ) / 100

/-- CPython random.uniform(a, b) returns a + (b - a) * random(); u stands for
the unit-interval draw random() of the seeded generator. -/
def uniform (a b u : ℚ) : ℚ := a + (b - a) * u

/-- ASCII whitespace stripped by CPython around a float string: space, tab,
newline, carriage return, vertical tab, form feed. -/
def isSpaceChar (c : Char) : Bool :=
  c == ' ' || c == '\t' || c == '\n' || c == '\r' || c == '\x0b' || c == '\x0c'

/-- Strip leading and trailing whitespace from a character list. -/
def trimSpace (l : List Char) : List Char :=
  ((l.dropWhile isSpaceChar).reverse.dropWhile isSpaceChar).reverse

/-- Run of decimal digits with single underscores allowed between digits, as
CPython accepts inside float strings; accumulates the value and the digit
count and returns the unconsumed rest, or none when an underscore is not
followed by another digit. -/
def digitsGo : ℕ → ℕ → List Char → Option (ℕ × ℕ × List Char)
  | acc, nd, [] => some (acc, nd, [])
  | acc, nd, c :: rest =>
    if c.isDigit then digitsGo (acc * 10 + (c.toNat - 48)) (nd + 1) rest
    else if c = '_' ∧ nd ≠ 0 then
      match rest with
      | d :: rest2 =>
        if d.isDigit then digitsGo (acc * 10 + (d.toNat - 48)) (nd + 1) rest2 else none
      | [] => none
    else some (acc, nd, c :: rest)

/-- Optional decimal exponent of a float string: e or E, an optional sign and
at least one digit; applies the exponent to the value exactly (the model
works with exact rationals throughout, so no binary rounding, overflow or
underflow is applied). -/
def parseExpTail (v : ℚ) (r : List Char) : Option (ℚ × List Char) :=
  let signed : Bool × List Char :=
    match r with
    | '+' :: t => (false, t)
    | '-' :: t => (true, t)
    | _ => (false, r)
  match digitsGo 0 0 signed.2 with
  | some (ev, ed, r3) =>
    if ed = 0 then none
    else some (if signed.1 then v / 10 ^ ev else v * 10 ^ ev, r3)
  | none => none

/-- Exponent part dispatcher: no e or E leaves the value unchanged. -/
def parseExp (v : ℚ) (l : List Char) : Option (ℚ × List Char) :=
  match l with
  | 'e' :: r => parseExpTail v r
  | 'E' :: r => parseExpTail v r
  | _ => some (v, l)

/-- Unsigned float literal: digits with an optional fractional part, or a
fractional part alone, at least one digit overall, then an optional
exponent — the grammar CPython float() accepts after sign stripping. -/
def parseUnsigned (l : List Char) : Option (ℚ × List Char) :=
  match digitsGo 0 0 l with
  | none => none
  | some (intv, intd, r1) =>
    match r1 with
    | '.' :: r2 =>
      match digitsGo 0 0 r2 with
      | none => none
      | some (fracv, fracd, r3) =>
        if intd = 0 ∧ fracd = 0 then none
        else parseExp ((intv : ℚ) + (fracv : ℚ) / 10 ^ fracd) r3
    | _ => if intd = 0 then none else parseExp (intv : ℚ) r1

/-- CPython float() on a string: strip surrounding whitespace, take an
optional sign, then a decimal literal consuming the whole rest; none models
the ValueError raised otherwise.  The value is the exact rational the literal
denotes, consistent with the floats-as-rationals convention of this model.
Not modelled (see modelledStr): non-ASCII spellings (unicode digits and
spaces, which CPython also accepts) and the inf/infinity/nan spellings, whose
successful float() result is not a finite number and so has no rational
counterpart. -/
def parseFloat? (s : String) : Option ℚ :=
  let l := trimSpace s.toList
  match l with
  | '+' :: r =>
    match parseUnsigned r with
    | some (v, []) => some v
    | _ => none
  | '-' :: r =>
    match parseUnsigned r with
    | some (v, []) => some (-v)
    | _ => none
  | _ =>
    match parseUnsigned l with
    | some (v, []) => some v
    | _ => none

/-- Spellings of the non-finite floats accepted by CPython float(): an
optional sign followed by inf, infinity or nan in any letter case. -/
def isInfNan (s : String) : Bool :=
  let l := trimSpace s.toList
  let l2 : List Char :=
    match l with
    | '+' :: r => r
    | '-' :: r => r
    | _ => l
  let w := (l2.map Char.toLower).asString
  w == "inf" || w == "infinity" || w == "nan"

/-- Strings on which this rational embedding of float() is faithful: ASCII
strings that are not inf/infinity/nan spellings.  Outside this set CPython
float() can accept unicode digit or space forms, or produce a non-finite
float, neither of which the rational model represents. -/
def modelledStr (s : String) : Bool :=
  s.toList.all (fun c => c.toNat ≤ 127) && !(isInfNan s)

/-- CPython float() on a payload value: numbers pass through, booleans become
0 or 1, strings are parsed (ValueError carrying the string on failure),
non-numeric objects raise TypeError naming the type of the argument. -/
def pyFloat (v : PyVal) : Except PyErr ℚ :=
  match v with
  | .num q => .ok q
  | .boolean b => .ok (if b then 1 else 0)
  | .str s =>
    match parseFloat? s with
    | some q => .ok q
    | none => .error (.valueError s)
  | .obj t => .error (.typeError t)

/-- Expression float(payload.get(key, default)): an absent key yields the
(numeric) default, a present value goes through float(). -/
def getMetric (v : Option PyVal) (dflt : ℚ) : Except PyErr ℚ :=
  match v with
  | none => .ok dflt
  | some w => pyFloat w

/-- Value that a successful float(payload.get(key, default)) returns: the
number itself, 0 or 1 for a boolean, the parsed value for a coercible string,
and the default for an absent key. -/
def valueOr (v : Option PyVal) (dflt : ℚ) : ℚ :=
  match v with
  | some (.num q) => q
  | some (.boolean b) => if b then 1 else 0
  | some (.str s) => (parseFloat? s).getD dflt
  | _ => dflt

/-- True exactly when float() succeeds on the entry: absent keys (the numeric
default), numbers, booleans and parsable strings; false for non-numeric
strings and non-numeric objects. -/
def numOk : Option PyVal → Bool
  | some (.str s) => (parseFloat? s).isSome
  | some (.obj _) => false
  | _ => true

/-- Every present entry of the payload is numeric, so that every float()
coercion performed by the engine succeeds. -/
def allNumeric (p : Payload) : Prop :=
  numOk p.sleep = true ∧ numOk p.switching = true ∧ numOk p.stress = true ∧
  numOk p.workload = true ∧ numOk p.hrv = true ∧ numOk p.deep_work = true ∧
  numOk p.deep_work_hours = true ∧ numOk p.context_switching = true ∧
  numOk p.context_hours = true ∧ numOk p.recovery_breaks = true ∧
  numOk p.recovery_hours = true ∧ numOk p.overload_hours = true ∧
  numOk p.overload_hours_count = true

/-- Entry on which the rational embedding of float() is faithful: any
non-string value, or a modelled string (ASCII, not an inf/nan spelling). -/
def modelledVal : Option PyVal → Bool
  | some (.str s) => modelledStr s
  | _ => true

/-- Payload on which the embedding is faithful to CPython: every present
string entry is a modelled string.  Statements about extraction of arbitrary
payloads assume this; all other payload shapes are modelled exactly. -/
def modelledPayload (p : Payload) : Prop :=
  modelledVal p.sleep = true ∧ modelledVal p.switching = true ∧ modelledVal p.stress = true ∧
  modelledVal p.workload = true ∧ modelledVal p.hrv = true ∧ modelledVal p.deep_work = true ∧
  modelledVal p.deep_work_hours = true ∧ modelledVal p.context_switching = true ∧
  modelledVal p.context_hours = true ∧ modelledVal p.recovery_breaks = true ∧
  modelledVal p.recovery_hours = true ∧ modelledVal p.overload_hours = true ∧
  modelledVal p.overload_hours_count = true

/-- Metrics record that a fully successful extraction produces: each key gets
the payload value when present and numeric, else its documented default. -/
def metricsOf (p : Payload) : Metrics :=
  { sleep := valueOr p.sleep 5
    switching := valueOr p.switching 5
    stress := valueOr p.stress 5
    workload := valueOr p.workload 5
    hrv := valueOr p.hrv 5
    deep_work := valueOr p.deep_work 50
    deep_work_hours := valueOr p.deep_work_hours 4
    context_switching := valueOr p.context_switching 50
    context_hours := valueOr p.context_hours 3
    recovery_breaks := valueOr p.recovery_breaks 40
    recovery_hours := valueOr p.recovery_hours 2
    overload_hours := valueOr p.overload_hours 50
    overload_hours_count := valueOr p.overload_hours_count 4 }

/-- Sequence of float(payload.get(key, default)) coercions performed at the
head of compute_mri (app.py), in source order. -/
def extract (p : Payload) : Except PyErr Metrics := do
  let sleep ← getMetric p.sleep 5
  let switching ← getMetric p.switching 5
  let stress ← getMetric p.stress 5
  let workload ← getMetric p.workload 5
  let hrv ← getMetric p.hrv 5
  let deep_work ← getMetric p.deep_work 50
  let deep_work_hours ← getMetric p.deep_work_hours 4
  let context_switching ← getMetric p.context_switching 50
  let context_hours ← getMetric p.context_hours 3
  let recovery_breaks ← getMetric p.recovery_breaks 40
  let recovery_hours ← getMetric p.recovery_hours 2
  let overload_hours ← getMetric p.overload_hours 50
  let overload_hours_count ← getMetric p.overload_hours_count 4
  pure ⟨sleep, switching, stress, workload, hrv, deep_work, deep_work_hours,
    context_switching, context_hours, recovery_breaks, recovery_hours,
    overload_hours, overload_hours_count⟩

/-- Score accumulation of compute_mri (app.py), mirroring the sequence of the
five incremental statements building the float score. -/
def mriScore (m : Metrics) : ℚ :=
  ((((100 - (m.switching * 4 + m.stress * 5 + m.workload * 4) + (m.sleep * 5 + m.hrv * 3))
    + (m.deep_work * 0.1 + m.deep_work_hours * 1.5))
    - (m.context_switching * 0.15 + m.context_hours * 2.0))
    + (m.recovery_breaks * 0.12 + m.recovery_hours * 2.0))
    - (m.overload_hours * 0.2 + m.overload_hours_count * 2.5)

/-- Additive linear score as the spec states it (one flat formula), for
comparison with mriScore translated from the source. -/
def specScore (m : Metrics) : ℚ :=
  100 - (m.switching * 4 + m.stress * 5 + m.workload * 4) + (m.sleep * 5 + m.hrv * 3)
    + m.deep_work * 0.1 + m.deep_work_hours * 1.5
    - m.context_switching * 0.15 - m.context_hours * 2.0
    + m.recovery_breaks * 0.12 + m.recovery_hours * 2.0
    - m.overload_hours * 0.2 - m.overload_hours_count * 2.5

/-- Tail of compute_mri: int(clamp(round(score))) with the default clamp
bounds 0 and 100; round() yields an integer, so the clamp is integral and the
final int() is the identity. -/
def compute_mri (m : Metrics) : ℤ := imax 0 (imin 100 (pyRound (mriScore m)))

/-- Whole compute_mri on a raw payload: extraction then the score. -/
def compute_mriP (p : Payload) : Except PyErr ℤ := (extract p).map compute_mri

/-- Seed-indexed stream of unit draws: R seed k is the k-th random() value
produced by the global generator after random.seed(seed). -/
abbrev RandomStream := ℤ → ℕ → ℚ

/-- Function build_forecast(base, seed, context_switching, recovery_breaks,
overload_hours) from app.py: reseed, then for day 0..6 draw one uniform(-4,4)
jitter (the day-th draw of the stream) and truncate the clamped value. -/
def build_forecast (R : RandomStream) (base : ℚ) (seed : ℤ) (cs rb oh : ℚ) : List ℤ :=
  let u := R seed
  (List.range 7).map fun day =>
    let jitter := uniform (-4) 4 (u day)
    let adjust := cs * 0.08 + oh * 0.1 - rb * 0.06
    ratTrunc (clamp (base + (day : ℚ) * 3 + jitter + adjust) 0 100)

/-- Result dictionary of weekly_series: fixed labels plus the two parallel
integer series. -/
structure Weekly where
  labels : List String
  mri : List ℤ
  load : List ℤ
deriving DecidableEq

/-- Function weekly_series(mri, seed, deep_work, context_switching,
recovery_breaks, overload_hours) from app.py: reseed, then per day draw drift
uniform(-6,6) (draw 2*d of the stream), build the clamped day_mri, truncate it
into the mri series, draw uniform(-5,5) (draw 2*d+1), and truncate the clamped
load built from the un-truncated day_mri. -/
def weekly_series (R : RandomStream) (mri : ℤ) (seed : ℤ) (dw cs rb oh : ℚ) : Weekly :=
  let u := R seed
  let day := fun (d : ℕ) =>
    let drift := uniform (-6) 6 (u (2 * d))
    let day_mri := clamp ((mri : ℚ) + drift + dw * 0.04 - cs * 0.05 + rb * 0.03 - oh * 0.06) 0 100
    let load := clamp (100 - day_mri + oh * 0.2 + cs * 0.15 - rb * 0.1 + uniform (-5) 5 (u (2 * d + 1))) 0 100
    (ratTrunc day_mri, ratTrunc load)
  let days := (List.range 7).map day
  { labels := ["Mon", "Tue", "Wed", "Thu", "Fri", "Sat", "Sun"]
    mri := days.map Prod.fst
    load := days.map Prod.snd }

/-- Static record returned by risk_package for one tier. -/
structure RiskInfo where
  label : String
  level : String
  pill : String
  forecast_label : String
  coach_tip : String
  recovery_now : String
deriving DecidableEq

/-- Healthy tier record of risk_package (app.py). -/
def healthyTier : RiskInfo :=
  { label := "Healthy"
    level := "healthy"
    pill := "🟢 Healthy"
    forecast_label := "Low Risk"
    coach_tip := "You can push, but keep a 12-minute reset break every 2 hours."
    recovery_now := "Hydration + light stretching recommended now." }

/-- At-risk tier record of risk_package (app.py). -/
def atRiskTier : RiskInfo :=
  { label := "At Risk"
    level := "at-risk"
    pill := "🟡 At Risk"
    forecast_label := "Elevated Risk"
    coach_tip := "You need a 17-minute low-stimulus break. Avoid decision-heavy tasks after 6 PM today."
    recovery_now := "Step away from screens for 8 minutes and take 10 slow breaths." }

/-- Danger tier record of risk_package (app.py). -/
def dangerTier : RiskInfo :=
  { label := "Burnout Incoming"
    level := "danger"
    pill := "🔴 Burnout Incoming"
    forecast_label := "High Risk"
    coach_tip := "Block 45 minutes for recovery, reduce workload intensity, and delay complex tasks."
    recovery_now := "Power nap suggestion: 18 minutes with a quiet timer." }

/-- Function risk_package(mri) from app.py: thresholds tested top-down,
inclusive on the lower bound. -/
def risk_package (mri : ℤ) : RiskInfo :=
  if 75 ≤ mri then healthyTier
  else if 55 ≤ mri then atRiskTier
  else dangerTier

/-- Value risk_score computed inside predict (app.py): clamp of
100 - mri + context_switching*0.12 + overload_hours*0.18 - recovery_breaks*0.1. -/
def riskScoreOf (m : Metrics) : ℚ :=
  clamp (100 - (compute_mri m : ℚ) + m.context_switching * 0.12 + m.overload_hours * 0.18 - m.recovery_breaks * 0.1) 0 100

/-- Seed int(mri + risk_score + payload.get("stress", 5)) computed inside
predict (app.py); int() truncates toward zero. -/
def forecastSeed (mri : ℤ) (risk_score stress : ℚ) : ℤ :=
  ratTrunc ((mri : ℚ) + risk_score + stress)

/-- Successful JSON body assembled by the predict endpoint. -/
structure ScoreResponse where
  mri : ℤ
  risk_label : String
  risk_level : String
  risk_pill : String
  forecast_label : String
  confidence : ℚ
  forecast : List ℤ
  weekly : Weekly
  coach_tip : String
  recovery_now : String
deriving DecidableEq

/-- Response predict assembles once every metric coercion has succeeded,
written over the extracted metrics record. -/
def assembleOf (R : RandomStream) (m : Metrics) : ScoreResponse :=
  let mri := compute_mri m
  let risk := risk_package mri
  let seed := forecastSeed mri (riskScoreOf m) m.stress
  { mri := mri
    risk_label := risk.label
    risk_level := risk.level
    risk_pill := risk.pill
    forecast_label := risk.forecast_label
    confidence := round2 (clamp (0.7 + ((mri : ℚ) / 100) * 0.25) 0.7 0.95)
    forecast := build_forecast R (riskScoreOf m) seed m.context_switching m.recovery_breaks m.overload_hours
    weekly := weekly_series R mri (seed + 7) m.deep_work m.context_switching m.recovery_breaks m.overload_hours
    coach_tip := risk.coach_tip
    recovery_now := risk.recovery_now }

/-- Body of the predict endpoint (app.py): compute_mri with its coercions,
risk_package, the four re-extracted raw metrics, risk_score, the combined
seed, both generators, and the confidence, assembled into the response. -/
def predictResponse (R : RandomStream) (p : Payload) : Except PyErr ScoreResponse := do
  let m ← extract p
  let mri := compute_mri m
  let risk := risk_package mri
  let context_switching ← getMetric p.context_switching 50
  let recovery_breaks ← getMetric p.recovery_breaks 40
  let overload_hours ← getMetric p.overload_hours 50
  let deep_work ← getMetric p.deep_work 50
  let risk_score := clamp (100 - (mri : ℚ) + context_switching * 0.12 + overload_hours * 0.18 - recovery_breaks * 0.1) 0 100
  let stress ← getMetric p.stress 5
  let seed := forecastSeed mri risk_score stress
  let forecast := build_forecast R risk_score seed context_switching recovery_breaks overload_hours
  let weekly := weekly_series R mri (seed + 7) deep_work context_switching recovery_breaks overload_hours
  let confidence := clamp (0.7 + ((mri : ℚ) / 100) * 0.25) 0.7 0.95
  pure { mri := mri
         risk_label := risk.label
         risk_level := risk.level
         risk_pill := risk.pill
         forecast_label := risk.forecast_label
         confidence := round2 confidence
         forecast := forecast
         weekly := weekly
         coach_tip := risk.coach_tip
         recovery_now := risk.recovery_now }

/-- Metrics produced by the empty payload: every key at its default. -/
def defaultMetrics : Metrics := ⟨5, 5, 5, 5, 5, 50, 4, 50, 3, 40, 2, 50, 4⟩

/-- Concrete healthy scenario payload from the spec. -/
def pHealthy : Payload :=
  { sleep := some (.num 8), switching := some (.num 2), stress := some (.num 2),
    workload := some (.num 3), hrv := some (.num 7), deep_work := some (.num 60),
    deep_work_hours := some (.num 5), context_switching := some (.num 20),
    context_hours := some (.num 1), recovery_breaks := some (.num 70),
    recovery_hours := some (.num 3), overload_hours := some (.num 10),
    overload_hours_count := some (.num 1) }

/-- Metrics of the healthy scenario payload. -/
def mHealthy : Metrics := ⟨8, 2, 2, 3, 7, 60, 5, 20, 1, 70, 3, 10, 1⟩

/-- Payload whose sleep entry is a non-numeric null value. -/
def pBadSleep : Payload := { sleep := some (.obj "NoneType") }

/-- Payload whose stress entry is a non-numeric null value. -/
def pBadStress : Payload := { stress := some (.obj "NoneType") }

/-- Payload whose sleep entry is a non-numeric string. -/
def pStrSleep : Payload := { sleep := some (.str "abc") }

/-- Payload whose stress entry is a non-numeric string. -/
def pStrStress : Payload := { stress := some (.str "abc") }

/-- Payload whose sleep entry is a numeric string, which float() accepts. -/
def pStrNum : Payload := { sleep := some (.str "5") }

/-- Concrete random stream used to instantiate hypotheses: every draw 1/2. -/
def halfStream : RandomStream := fun _ _ => 1/2

/-! Helper lemmas about the numeric primitives. -/

theorem clamp_mem (x low high : ℚ) (h : low ≤ high) :
    low ≤ clamp x low high ∧ clamp x low high ≤ high := by
  unfold clamp rmax rmin
  split_ifs <;> constructor <;> linarith

theorem ratTrunc_eq_floor (x : ℚ) (h : 0 ≤ x) : ratTrunc x = ⌊x⌋ := if_pos h

theorem ratTrunc_mem (y : ℚ) (h1 : 0 ≤ y) (h2 : y ≤ 100) :
    0 ≤ ratTrunc y ∧ ratTrunc y ≤ 100 := by
  rw [ratTrunc_eq_floor y h1]
  refine ⟨Int.floor_nonneg.mpr h1, ?_⟩
  have hle : (⌊y⌋ : ℚ) ≤ 100 := le_trans (Int.floor_le y) h2
  exact_mod_cast hle

theorem pyRound_eq_low (n : ℤ) (x : ℚ) (h1 : (n : ℚ) ≤ x) (h2 : x < (n : ℚ) + 1/2) :
    pyRound x = n := by
  have hf : ⌊x⌋ = n := Int.floor_eq_iff.mpr ⟨h1, by linarith⟩
  unfold pyRound
  rw [hf, if_pos (show x - (n : ℚ) < 1/2 by linarith)]

theorem pyRound_bounds (y : ℚ) (a b : ℤ) (h1 : (a : ℚ) ≤ y) (h2 : y ≤ (b : ℚ)) :
    a ≤ pyRound y ∧ pyRound y ≤ b := by
  have hf1 : (⌊y⌋ : ℚ) ≤ y := Int.floor_le y
  have ha : a ≤ ⌊y⌋ := Int.le_floor.mpr h1
  have hb : ⌊y⌋ ≤ b := by
    have : (⌊y⌋ : ℚ) ≤ (b : ℚ) := le_trans hf1 h2
    exact_mod_cast this
  unfold pyRound
  split_ifs with hlt hgt hev
  · exact ⟨ha, hb⟩
  · have hx : (⌊y⌋ : ℚ) + 1/2 < y := by linarith
    have hcast : (⌊y⌋ : ℚ) < (b : ℚ) := by linarith
    have hbb : ⌊y⌋ < b := by exact_mod_cast hcast
    exact ⟨le_trans ha (by omega), by omega⟩
  · exact ⟨ha, hb⟩
  · have hx : (⌊y⌋ : ℚ) + 1/2 ≤ y := by linarith
    have hcast : (⌊y⌋ : ℚ) < (b : ℚ) := by linarith
    have hbb : ⌊y⌋ < b := by exact_mod_cast hcast
    exact ⟨le_trans ha (by omega), by omega⟩

theorem pyRound_nearest (x : ℚ) : |x - (pyRound x : ℚ)| ≤ 1/2 := by
  have hf1 : (⌊x⌋ : ℚ) ≤ x := Int.floor_le x
  have hf2 : x < (⌊x⌋ : ℚ) + 1 := Int.lt_floor_add_one x
  unfold pyRound
  split_ifs with hlt hgt hev <;> rw [abs_le] <;> constructor <;> push_cast <;> linarith

theorem round2_mem (x : ℚ) (h1 : 0.7 ≤ x) (h2 : x ≤ 0.95) :
    0.7 ≤ round2 x ∧ round2 x ≤ 0.95 := by
  have hb := pyRound_bounds (x * 100) 70 95 (by push_cast; linarith) (by push_cast; linarith)
  have hlo : (70 : ℚ) ≤ (pyRound (x * 100) : ℚ) := by exact_mod_cast hb.1
  have hhi : ((pyRound (x * 100) : ℚ)) ≤ 95 := by exact_mod_cast hb.2
  unfold round2
  constructor <;> [linarith; linarith]

theorem compute_mri_mem (m : Metrics) : 0 ≤ compute_mri m ∧ compute_mri m ≤ 100 := by
  unfold compute_mri imax imin
  split_ifs <;> omega

/-! Helper lemmas about extraction. -/

theorem getMetric_numOk (v : Option PyVal) (d : ℚ) (h : numOk v = true) :
    getMetric v d = Except.ok (valueOr v d) := by
  cases v with
  | none => rfl
  | some w =>
    cases w with
    | num q => rfl
    | boolean b => rfl
    | str s =>
      cases hp : parseFloat? s with
      | some q => simp [getMetric, pyFloat, hp, valueOr]
      | none => simp [numOk, hp] at h
    | obj t => simp [numOk] at h

theorem bindOkStep {α : Type} (v : Option PyVal) (d : ℚ) (f : ℚ → Except PyErr α) (b : α)
    (h : (getMetric v d >>= f) = .ok b) :
    numOk v = true ∧ f (valueOr v d) = .ok b := by
  cases v with
  | none => exact ⟨rfl, h⟩
  | some w =>
    cases w with
    | num q => exact ⟨rfl, h⟩
    | boolean b2 => exact ⟨rfl, h⟩
    | str s =>
      simp only [getMetric, pyFloat] at h
      cases hp : parseFloat? s with
      | some q =>
        rw [hp] at h
        have hv : valueOr (some (.str s)) d = q := by simp [valueOr, hp]
        rw [hv]
        exact ⟨by simp [numOk, hp], h⟩
      | none =>
        rw [hp] at h
        exact absurd h (fun hh => Except.noConfusion hh)
    | obj t => exact absurd h (fun hh => Except.noConfusion hh)

theorem extract_ok_imp (p : Payload) (m : Metrics) (h : extract p = .ok m) :
    allNumeric p ∧ m = metricsOf p := by
  unfold extract at h
  obtain ⟨n1, h⟩ := bindOkStep _ _ _ _ h
  obtain ⟨n2, h⟩ := bindOkStep _ _ _ _ h
  obtain ⟨n3, h⟩ := bindOkStep _ _ _ _ h
  obtain ⟨n4, h⟩ := bindOkStep _ _ _ _ h
  obtain ⟨n5, h⟩ := bindOkStep _ _ _ _ h
  obtain ⟨n6, h⟩ := bindOkStep _ _ _ _ h
  obtain ⟨n7, h⟩ := bindOkStep _ _ _ _ h
  obtain ⟨n8, h⟩ := bindOkStep _ _ _ _ h
  obtain ⟨n9, h⟩ := bindOkStep _ _ _ _ h
  obtain ⟨n10, h⟩ := bindOkStep _ _ _ _ h
  obtain ⟨n11, h⟩ := bindOkStep _ _ _ _ h
  obtain ⟨n12, h⟩ := bindOkStep _ _ _ _ h
  obtain ⟨n13, h⟩ := bindOkStep _ _ _ _ h
  refine ⟨⟨n1, n2, n3, n4, n5, n6, n7, n8, n9, n10, n11, n12, n13⟩, ?_⟩
  exact (Except.ok.inj h).symm

theorem extract_eq_ok (p : Payload) (h : allNumeric p) : extract p = .ok (metricsOf p) := by
  obtain ⟨h1, h2, h3, h4, h5, h6, h7, h8, h9, h10, h11, h12, h13⟩ := h
  unfold extract
  simp only [getMetric_numOk _ _ h1, getMetric_numOk _ _ h2, getMetric_numOk _ _ h3,
    getMetric_numOk _ _ h4, getMetric_numOk _ _ h5, getMetric_numOk _ _ h6,
    getMetric_numOk _ _ h7, getMetric_numOk _ _ h8, getMetric_numOk _ _ h9,
    getMetric_numOk _ _ h10, getMetric_numOk _ _ h11, getMetric_numOk _ _ h12,
    getMetric_numOk _ _ h13]
  rfl

theorem extract_of_bad (p : Payload) (h : ¬ allNumeric p) :
    ∃ e, extract p = .error e := by
  cases hex : extract p with
  | error e => exact ⟨e, rfl⟩
  | ok m => exact absurd (extract_ok_imp p m hex).1 h

theorem mriScore_default : mriScore defaultMetrics = 613/10 := by
  norm_num [mriScore, defaultMetrics]

theorem compute_mri_default : compute_mri defaultMetrics = 61 := by
  unfold compute_mri
  rw [mriScore_default, pyRound_eq_low 61 _ (by norm_num) (by norm_num)]
  rfl

theorem mriScore_healthy : mriScore mHealthy = 747/5 := by
  norm_num [mriScore, mHealthy]

theorem compute_mri_healthy : compute_mri mHealthy = 100 := by
  unfold compute_mri
  rw [mriScore_healthy, pyRound_eq_low 149 _ (by norm_num) (by norm_num)]
  rfl

/-- C1: for every fully-populated MetricsInput, compute_mri returns exactly the
documented flat additive linear score, rounded to the nearest integer
(round-half-to-even, so the distance to the score is at most 1/2) and then
clamped to [0,100]; in particular the result is always an integer in
[0,100]. -/
theorem compute_mri_linear_formula (m : Metrics) :
    compute_mri m = imax 0 (imin 100 (pyRound (specScore m)))
    ∧ 0 ≤ compute_mri m ∧ compute_mri m ≤ 100
    ∧ |mriScore m - (pyRound (mriScore m) : ℚ)| ≤ 1/2 := by
  have hs : mriScore m = specScore m := by unfold mriScore specScore; ring
  refine ⟨?_, (compute_mri_mem m).1, (compute_mri_mem m).2, pyRound_nearest _⟩
  unfold compute_mri
  rw [hs]

/-- C2: risk_package returns the Healthy tier iff 75 ≤ mri, the AtRisk tier
iff 55 ≤ mri < 75, and the Danger tier iff mri < 55, for every integer mri
(also outside [0,100]); the three cases are exhaustive, so every MRI maps to
exactly one tier. -/
theorem risk_package_total_partition (mri : ℤ) :
    (risk_package mri = healthyTier ↔ 75 ≤ mri)
    ∧ (risk_package mri = atRiskTier ↔ 55 ≤ mri ∧ mri < 75)
    ∧ (risk_package mri = dangerTier ↔ mri < 55)
    ∧ (risk_package mri = healthyTier ∨ risk_package mri = atRiskTier
        ∨ risk_package mri = dangerTier) := by
  have h12 : healthyTier ≠ atRiskTier := by decide
  have h13 : healthyTier ≠ dangerTier := by decide
  have h23 : atRiskTier ≠ dangerTier := by decide
  unfold risk_package
  split_ifs with ha hb
  · exact ⟨⟨fun _ => ha, fun _ => rfl⟩,
      ⟨fun hh => absurd hh h12, fun hh => absurd ha (by omega)⟩,
      ⟨fun hh => absurd hh h13, fun hh => absurd ha (by omega)⟩,
      Or.inl rfl⟩
  · exact ⟨⟨fun hh => absurd hh.symm h12, fun hh => absurd hh ha⟩,
      ⟨fun _ => ⟨hb, by omega⟩, fun _ => rfl⟩,
      ⟨fun hh => absurd hh h23, fun hh => absurd hb (by omega)⟩,
      Or.inr (Or.inl rfl)⟩
  · exact ⟨⟨fun hh => absurd hh.symm h13, fun hh => absurd hh ha⟩,
      ⟨fun hh => absurd hh.symm h23, fun hh => absurd hh.1 hb⟩,
      ⟨fun _ => by omega, fun _ => rfl⟩,
      Or.inr (Or.inr rfl)⟩

/-- C3: build_forecast always returns exactly 7 integers, each in [0,100],
where element d equals clamp(base + d*3 + jitter_d + adjust, 0, 100)
truncated toward zero, with jitter_d the d-th uniform(-4,4) draw of the
generator seeded with seed and adjust the same context/overload/recovery
combination for every day; the jitter really lies in [-4,4] whenever the
underlying draws are unit-interval. -/
theorem build_forecast_shape (R : RandomStream) (base : ℚ) (seed : ℤ) (cs rb oh : ℚ)
    (hu : ∀ k, 0 ≤ R seed k ∧ R seed k < 1) :
    build_forecast R base seed cs rb oh
      = (List.range 7).map (fun day : ℕ => ratTrunc (clamp (base + (day : ℚ) * 3
          + uniform (-4) 4 (R seed day) + (cs * 0.08 + oh * 0.1 - rb * 0.06)) 0 100))
    ∧ (build_forecast R base seed cs rb oh).length = 7
    ∧ (∀ x ∈ build_forecast R base seed cs rb oh, 0 ≤ x ∧ x ≤ 100)
    ∧ (∀ day : ℕ, -4 ≤ uniform (-4) 4 (R seed day) ∧ uniform (-4) 4 (R seed day) ≤ 4) := by
  refine ⟨rfl, rfl, ?_, ?_⟩
  · intro x hx
    unfold build_forecast at hx
    simp only [List.mem_map, List.mem_range] at hx
    obtain ⟨day, _, rfl⟩ := hx
    exact ratTrunc_mem _ (clamp_mem _ 0 100 (by norm_num)).1 (clamp_mem _ 0 100 (by norm_num)).2
  · intro day
    have h := hu day
    unfold uniform
    constructor <;> linarith [h.1, h.2]

/-- C3 witness: the shape theorem instantiated at a concrete stream, base,
seed and metrics, with the unit-draw hypothesis discharged. -/
theorem build_forecast_shape_witness :
    (build_forecast halfStream 50 3 20 40 10).length = 7
    ∧ -4 ≤ uniform (-4) 4 (halfStream 3 0) ∧ uniform (-4) 4 (halfStream 3 0) ≤ 4 := by
  have h := build_forecast_shape halfStream 50 3 20 40 10
    (fun k => ⟨by norm_num [halfStream], by norm_num [halfStream]⟩)
  exact ⟨h.2.1, (h.2.2.2 0).1, (h.2.2.2 0).2⟩

/-- C4: weekly_series returns the fixed Mon..Sun labels plus two parallel
7-element integer series, each element in [0,100]; per day (in draw order)
the index entry is the truncation of the clamped day index built from the
uniform(-6,6) drift (draw 2d), and the load entry is the truncation of the
clamped load built from the un-truncated clamped day index and the second
uniform(-5,5) draw (draw 2d+1); both draws lie in their stated ranges
whenever the underlying draws are unit-interval. -/
theorem weekly_series_shape (R : RandomStream) (mri : ℤ) (seed : ℤ) (dw cs rb oh : ℚ)
    (hu : ∀ k, 0 ≤ R seed k ∧ R seed k < 1) :
    (weekly_series R mri seed dw cs rb oh).labels
      = ["Mon", "Tue", "Wed", "Thu", "Fri", "Sat", "Sun"]
    ∧ (weekly_series R mri seed dw cs rb oh).mri
        = (List.range 7).map (fun d : ℕ => ratTrunc (clamp ((mri : ℚ)
            + uniform (-6) 6 (R seed (2 * d))
            + dw * 0.04 - cs * 0.05 + rb * 0.03 - oh * 0.06) 0 100))
    ∧ (weekly_series R mri seed dw cs rb oh).load
        = (List.range 7).map (fun d : ℕ => ratTrunc (clamp (100
            - clamp ((mri : ℚ) + uniform (-6) 6 (R seed (2 * d))
                + dw * 0.04 - cs * 0.05 + rb * 0.03 - oh * 0.06) 0 100
            + oh * 0.2 + cs * 0.15 - rb * 0.1 + uniform (-5) 5 (R seed (2 * d + 1))) 0 100))
    ∧ (weekly_series R mri seed dw cs rb oh).mri.length = 7
    ∧ (weekly_series R mri seed dw cs rb oh).load.length = 7
    ∧ (∀ x ∈ (weekly_series R mri seed dw cs rb oh).mri, 0 ≤ x ∧ x ≤ 100)
    ∧ (∀ x ∈ (weekly_series R mri seed dw cs rb oh).load, 0 ≤ x ∧ x ≤ 100)
    ∧ (∀ d : ℕ, (-6 ≤ uniform (-6) 6 (R seed (2 * d)) ∧ uniform (-6) 6 (R seed (2 * d)) ≤ 6)
        ∧ (-5 ≤ uniform (-5) 5 (R seed (2 * d + 1))
            ∧ uniform (-5) 5 (R seed (2 * d + 1)) ≤ 5)) := by
  refine ⟨rfl, rfl, rfl, rfl, rfl, ?_, ?_, ?_⟩
  · intro x hx
    rw [show (weekly_series R mri seed dw cs rb oh).mri
        = (List.range 7).map (fun d : ℕ => ratTrunc (clamp ((mri : ℚ)
            + uniform (-6) 6 (R seed (2 * d))
            + dw * 0.04 - cs * 0.05 + rb * 0.03 - oh * 0.06) 0 100)) from rfl] at hx
    simp only [List.mem_map, List.mem_range] at hx
    obtain ⟨d, _, rfl⟩ := hx
    exact ratTrunc_mem _ (clamp_mem _ 0 100 (by norm_num)).1 (clamp_mem _ 0 100 (by norm_num)).2
  · intro x hx
    rw [show (weekly_series R mri seed dw cs rb oh).load
        = (List.range 7).map (fun d : ℕ => ratTrunc (clamp (100
            - clamp ((mri : ℚ) + uniform (-6) 6 (R seed (2 * d))
                + dw * 0.04 - cs * 0.05 + rb * 0.03 - oh * 0.06) 0 100
            + oh * 0.2 + cs * 0.15 - rb * 0.1 + uniform (-5) 5 (R seed (2 * d + 1))) 0 100))
      from rfl] at hx
    simp only [List.mem_map, List.mem_range] at hx
    obtain ⟨d, _, rfl⟩ := hx
    exact ratTrunc_mem _ (clamp_mem _ 0 100 (by norm_num)).1 (clamp_mem _ 0 100 (by norm_num)).2
  · intro d
    have h1 := hu (2 * d)
    have h2 := hu (2 * d + 1)
    unfold uniform
    exact ⟨⟨by linarith [h1.1, h1.2], by linarith [h1.1, h1.2]⟩,
      ⟨by linarith [h2.1, h2.2], by linarith [h2.1, h2.2]⟩⟩

/-- C4 witness: the weekly shape theorem instantiated at a concrete stream
and inputs, with the unit-draw hypothesis discharged. -/
theorem weekly_series_shape_witness :
    (weekly_series halfStream 61 10 50 50 40 50).labels
      = ["Mon", "Tue", "Wed", "Thu", "Fri", "Sat", "Sun"]
    ∧ -6 ≤ uniform (-6) 6 (halfStream 10 0) ∧ uniform (-6) 6 (halfStream 10 0) ≤ 6 := by
  have h := weekly_series_shape halfStream 61 10 50 50 40 50
    (fun k => ⟨by norm_num [halfStream], by norm_num [halfStream]⟩)
  exact ⟨h.1, (h.2.2.2.2.2.2.2 0).1.1, (h.2.2.2.2.2.2.2 0).1.2⟩

/-- C5: determinism as a two-run property: two calls of build_forecast with
identical (base, seed, context_switching, recovery_breaks, overload_hours)
against the same seeded generator yield identical sequences, two calls of
weekly_series with identical inputs yield identical paired sequences, and the
whole predict pipeline on an identical payload yields an identical
ScoreResponse. -/
theorem engine_deterministic (R : RandomStream)
    (b b2 : ℚ) (s s2 : ℤ) (cs cs2 rb rb2 oh oh2 : ℚ) (mri mri2 sd sd2 : ℤ) (dw dw2 : ℚ)
    (p p2 : Payload)
    (hb : b = b2) (hs : s = s2) (hcs : cs = cs2) (hrb : rb = rb2) (hoh : oh = oh2)
    (hm : mri = mri2) (hsd : sd = sd2) (hdw : dw = dw2) (hp : p = p2) :
    build_forecast R b s cs rb oh = build_forecast R b2 s2 cs2 rb2 oh2
    ∧ weekly_series R mri sd dw cs rb oh = weekly_series R mri2 sd2 dw2 cs2 rb2 oh2
    ∧ predictResponse R p = predictResponse R p2 := by
  subst hb hs hcs hrb hoh hm hsd hdw hp
  exact ⟨rfl, rfl, rfl⟩

/-- C5 witness: the determinism theorem applied at concrete equal inputs. -/
theorem engine_deterministic_witness :
    build_forecast halfStream 50 3 20 40 10 = build_forecast halfStream 50 3 20 40 10
    ∧ weekly_series halfStream 61 10 50 20 40 10 = weekly_series halfStream 61 10 50 20 40 10
    ∧ predictResponse halfStream {} = predictResponse halfStream {} :=
  engine_deterministic halfStream 50 50 3 3 20 20 40 40 10 10 61 61 10 10 50 50 {} {}
    rfl rfl rfl rfl rfl rfl rfl rfl rfl

/-- C7 counterexample: payloads whose offending keys differ produce the very
same raw coercion error — the identical TypeError for a null sleep versus a
null stress, and the identical ValueError (carrying the string itself, not
the key) for a non-numeric string at sleep versus at stress — so the error
the code raises cannot name the offending key and is not a designed
InvalidMetric error. -/
theorem extract_error_unnamed_key :
    extract pBadSleep = .error (.typeError "NoneType")
    ∧ extract pBadStress = .error (.typeError "NoneType")
    ∧ extract pBadSleep = extract pBadStress
    ∧ pBadSleep ≠ pBadStress
    ∧ extract pStrSleep = .error (.valueError "abc")
    ∧ extract pStrStress = .error (.valueError "abc")
    ∧ extract pStrSleep = extract pStrStress
    ∧ pStrSleep ≠ pStrStress :=
  ⟨rfl, rfl, rfl, fun h => Option.noConfusion (congrArg Payload.stress h),
   rfl, rfl, rfl, fun h => Option.noConfusion (congrArg Payload.stress h)⟩

/-- C7 (amended): over the modelled payloads (every present string ASCII and
not an inf/nan spelling — the domain where the rational embedding of float()
is faithful): when float() succeeds on every present value (numbers,
booleans, and numeric strings included), extraction succeeds with every
recognized key populated by the coerced payload value or its documented
default — and success happens only that way; when float() fails on some
present value, extraction surfaces the raw coercion error (a ValueError
carrying the offending string, or a TypeError carrying the argument type —
never the payload key, and not a designed InvalidMetric) rather than silently
substituting the default. -/
theorem extract_strict (p : Payload) (hm : modelledPayload p) :
    (allNumeric p → extract p = .ok (metricsOf p))
    ∧ (¬ allNumeric p → ∃ e, extract p = .error e)
    ∧ (∀ m : Metrics, extract p = .ok m → allNumeric p ∧ m = metricsOf p) :=
  ⟨extract_eq_ok p, extract_of_bad p, fun m hh => extract_ok_imp p m hh⟩

/-- C7 witness: the strictness theorem applied to the payload whose sleep is
the numeric string "5" (success branch, numeric string accepted) and to the
payload with a null sleep entry (failure branch), both modelled. -/
theorem extract_strict_witness :
    extract pStrNum = .ok (metricsOf pStrNum)
    ∧ extract pBadSleep ≠ .ok (metricsOf pBadSleep) := by
  obtain ⟨e, he⟩ := (extract_strict pBadSleep
      ⟨rfl, rfl, rfl, rfl, rfl, rfl, rfl, rfl, rfl, rfl, rfl, rfl, rfl⟩).2.1
    (fun hh => absurd hh.1 (by simp [pBadSleep, numOk]))
  refine ⟨(extract_strict pStrNum
      ⟨rfl, rfl, rfl, rfl, rfl, rfl, rfl, rfl, rfl, rfl, rfl, rfl, rfl⟩).1
      ⟨rfl, rfl, rfl, rfl, rfl, rfl, rfl, rfl, rfl, rfl, rfl, rfl, rfl⟩, ?_⟩
  rw [he]
  exact fun hh => Except.noConfusion hh

/-- C8: the assembled confidence equals clamp(0.7 + (mri/100)*0.25, 0.7, 0.95)
rounded to 2 decimal places, and always lies in [0.70, 0.95]. -/
theorem confidence_bounds (R : RandomStream) (m : Metrics) :
    (assembleOf R m).confidence
      = round2 (clamp (0.7 + ((compute_mri m : ℚ) / 100) * 0.25) 0.7 0.95)
    ∧ 0.7 ≤ (assembleOf R m).confidence ∧ (assembleOf R m).confidence ≤ 0.95 := by
  have hc := clamp_mem (0.7 + ((compute_mri m : ℚ) / 100) * 0.25) 0.7 0.95 (by norm_num)
  have hr := round2_mem _ hc.1 hc.2
  exact ⟨rfl, hr.1, hr.2⟩

/-- C9: the concrete all-healthy scenario payload extracts to its metrics,
scores MRI 100 ≥ 75, and is classified in the Healthy tier. -/
theorem healthy_scenario :
    extract pHealthy = .ok mHealthy
    ∧ compute_mri mHealthy = 100
    ∧ 75 ≤ compute_mri mHealthy
    ∧ risk_package (compute_mri mHealthy) = healthyTier := by
  refine ⟨rfl, compute_mri_healthy, ?_, ?_⟩
  · rw [compute_mri_healthy]; omega
  · rw [compute_mri_healthy]; rfl

/-- C10: the empty payload extracts to the documented defaults (sleep 5,
switching 5, stress 5, workload 5, hrv 5, deep_work 50, deep_work_hours 4,
context_switching 50, context_hours 3, recovery_breaks 40, recovery_hours 2,
overload_hours 50, overload_hours_count 4), compute_mri returns exactly 61,
and the classifier places 61 in the middle tier with label "At Risk" and
level "at-risk". -/
theorem default_scenario :
    metricsOf ({} : Payload) = defaultMetrics
    ∧ defaultMetrics = ⟨5, 5, 5, 5, 5, 50, 4, 50, 3, 40, 2, 50, 4⟩
    ∧ compute_mriP ({} : Payload) = .ok 61
    ∧ compute_mri defaultMetrics = 61
    ∧ risk_package 61 = atRiskTier
    ∧ atRiskTier.label = "At Risk"
    ∧ atRiskTier.level = "at-risk" := by
  refine ⟨rfl, rfl, ?_, compute_mri_default, rfl, rfl, rfl⟩
  unfold compute_mriP
  rw [show extract ({} : Payload) = Except.ok defaultMetrics from rfl]
  simp only [Except.map, compute_mri_default]

end MindPulse
